import Mathlib

/-!
Shallow embedding of the Integration Quest game engine (combat resolution,
dungeon progression, status effects, dice utility) together with proofs of
the specification claims.  Each definition mirrors one Python function of the
repository; randomness is modelled by explicit oracle parameters (a stream of
die outcomes, a critical-hit flag, uniform draws), and Python `int` arithmetic
is modelled by `Int`/`Nat` with explicit truncation of rational intermediates.
-/

set_option linter.unusedVariables false

namespace IntegrationQuest

/-- Python `int(q)` truncation toward zero of a rational value. -/
def pyTrunc (q : ℚ) : Int := if q < 0 then -⌊-q⌋ else ⌊q⌋

/-- Characters treated as whitespace by Python `str.strip()` / `int()`. -/
def isPySpace (c : Char) : Bool :=
  c == ' ' || c == '\t' || c == '\n' || c == '\r' || c == '\x0b' || c == '\x0c'

/-- Python `str.strip()` on a character list: drop whitespace at both ends. -/
def pyStrip (cs : List Char) : List Char :=
  ((cs.dropWhile isPySpace).reverse.dropWhile isPySpace).reverse

/-- Numeric value of a decimal digit character. -/
def digitVal (c : Char) : Nat := c.toNat - '0'.toNat

/-- Read a maximal nonempty run of leading decimal digits (regex `\d+`),
returning its value and the remaining characters. -/
def takeDigits (cs : List Char) : Option (Nat × List Char) :=
  let ds := cs.takeWhile Char.isDigit
  if ds.isEmpty then none
  else some (ds.foldl (fun a c => a * 10 + digitVal c) 0, cs.dropWhile Char.isDigit)

/-- Prefix match of the regex `(\d+)d(\d+)([+-]\d+)?` from `systems/dice.py`
(the Python code uses `re.match`, so trailing characters are ignored, and a
sign without digits after it simply leaves the optional modifier group
unmatched). -/
def parseDiceChars (cs : List Char) : Option (Nat × Nat × Int) :=
  match takeDigits cs with
  | none => none
  | some (n, rest) =>
    match rest with
    | 'd' :: rest2 =>
      match takeDigits rest2 with
      | none => none
      | some (m, rest3) =>
        match rest3 with
        | '+' :: rest4 =>
          match takeDigits rest4 with
          | some (k, _) => some (n, m, (k : Int))
          | none => some (n, m, 0)
        | '-' :: rest4 =>
          match takeDigits rest4 with
          | some (k, _) => some (n, m, -(k : Int))
          | none => some (n, m, 0)
        | _ => some (n, m, 0)
    | _ => none

/-- `re.match(r'(\d+)d(\d+)([+-]\d+)?', s.lower().strip())` from
`roll_dice` in `systems/dice.py`. -/
def parse_dice_notation (s : String) : Option (Nat × Nat × Int) :=
  parseDiceChars (pyStrip (s.toList.map Char.toLower))

/-- Digits possibly separated by single underscores (the tail of a Python
integer literal as accepted by `int()`), accumulating the value. -/
def parseUnderscoreDigits : List Char → Nat → Option Nat
  | [], acc => some acc
  | '_' :: c :: rest, acc =>
      if c.isDigit then parseUnderscoreDigits rest (acc * 10 + digitVal c) else none
  | ['_'], _ => none
  | c :: rest, acc =>
      if c.isDigit then parseUnderscoreDigits rest (acc * 10 + digitVal c) else none

/-- Python built-in `int(s)` on a string: optional surrounding whitespace, an
optional sign, then decimal digits (single underscores allowed between
digits); `none` models the `ValueError` branch. -/
def pyParseInt (s : String) : Option Int :=
  match pyStrip s.toList with
  | '+' :: c :: rest =>
      if c.isDigit then (parseUnderscoreDigits rest (digitVal c)).map Int.ofNat else none
  | '-' :: c :: rest =>
      if c.isDigit then (parseUnderscoreDigits rest (digitVal c)).map (fun n => -(n : Int))
      else none
  | c :: rest =>
      if c.isDigit then (parseUnderscoreDigits rest (digitVal c)).map Int.ofNat else none
  | [] => none

/-- `roll_dice` from `systems/dice.py`.  The pseudo-random source is the
oracle `seq : Nat → Nat`, whose value at `i` models the `i`-th call of
`random.randint(1, die_size)` inside the list comprehension; a valid source
yields values in `[1, die_size]`.  On a dice-notation match the total is
`max(0, sum(rolls) + modifier)`; otherwise the string is interpreted as a
literal integer, degrading to `(0, [])` on failure. -/
def roll_dice (seq : Nat → Nat) (s : String) : Int × List Nat :=
  match parse_dice_notation s with
  | some (n, _m, k) =>
      let rolls := (List.range n).map seq
      (max 0 ((rolls.sum : Int) + k), rolls)
  | none =>
      match pyParseInt s with
      | some v => (v, [])
      | none => (0, [])

/-! ## Data model (`models/items.py`, `models/hero.py`, `models/combat.py`) -/

/-- Item rarity tier (`models/items.py`). -/
inductive Tier
  | common | uncommon | rare | legendary | epic
deriving DecidableEq, Repr

/-- `Weapon` model. -/
structure Weapon where
  id : String
  name : String
  description : String
  tier : Tier
  damage_dice : String
  special_effect : Option String := none
  drop_rate : ℚ
deriving DecidableEq, Repr

/-- `Armor` model. -/
structure Armor where
  id : String
  name : String
  description : String
  tier : Tier
  protection : Int
  special_effect : Option String := none
  drop_rate : ℚ
deriving DecidableEq, Repr

/-- `Consumable` model (note: consumables carry no tier field). -/
structure Consumable where
  id : String
  name : String
  description : String
  effect_type : String
  effect_value : Int
  drop_rate : ℚ
  single_use : Bool := true
deriving DecidableEq, Repr

/-- The `Weapon | Armor | Consumable` union used by inventories and loot. -/
inductive GameItem
  | weapon (w : Weapon)
  | armor (a : Armor)
  | consumable (c : Consumable)
deriving DecidableEq, Repr

/-- Dispatch of `.id` over the item union. -/
def GameItem.id : GameItem → String
  | .weapon w => w.id
  | .armor a => a.id
  | .consumable c => c.id

/-- `EquipmentSlots` model. -/
structure EquipmentSlots where
  weapon : Option Weapon := none
  armor : Option Armor := none
  accessory : Option String := none
deriving DecidableEq, Repr

/-- `InventoryItem` model: an item plus a stacked quantity. -/
structure InventoryItem where
  item : GameItem
  quantity : Int := 1
deriving DecidableEq, Repr

/-- `StatusEffect` model (`models/hero.py`); the effect type tag is one of the
seven string literals of the Python `Literal` type. -/
structure StatusEffect where
  name : String
  effect_type : String
  duration : Int
  description : String
deriving DecidableEq, Repr

/-- Hero class archetype (`models/hero.py` `role` literal). -/
inductive Role
  | warrior | mage | rogue | cleric
deriving DecidableEq, Repr

/-- `Hero` model. -/
structure Hero where
  name : String
  role : Role
  level : Nat := 1
  xp : Nat := 0
  uptime : Int := 100
  max_uptime : Int := 100
  api_credits : Int := 50
  max_api_credits : Int := 50
  throughput : Nat := 10
  formula_power : Nat := 10
  rate_agility : Nat := 10
  error_resilience : Nat := 10
  inventory : List InventoryItem := []
  equipped : EquipmentSlots := {}
  status_effects : List StatusEffect := []
  gold : Int := 0
  skills : List String := []
  recipe_fragments : Nat := 0
deriving DecidableEq, Repr

/-- Enemy tier (`models/combat.py` `tier` literal). -/
inductive EnemyTier
  | common | uncommon | rare | boss
deriving DecidableEq, Repr

/-- `Enemy` model. -/
structure Enemy where
  id : String
  name : String
  emoji : String := "x"
  description : String
  hp : Int
  max_hp : Int
  damage_dice : String
  armor : Int := 0
  weakness : Option String := none
  resistance : Option String := none
  special_ability : Option String := none
  immune_until_examined : Bool := false
  xp_reward : Nat
  gold_reward : Nat
  loot_table : String
  tier : EnemyTier
  is_examined : Bool := false
  status_effects : List String := []
deriving DecidableEq, Repr

/-- `CombatState` model. -/
structure CombatState where
  active : Bool := true
  enemies : List Enemy
  turn_order : List String := []
  current_turn_index : Nat := 0
  round_num : Nat := 1
  hero_defending : Bool := false
  hero_used_error_handler : Bool := false
  enemies_defeated : Nat := 0
deriving DecidableEq, Repr

/-! ## Configuration constants (`config.py`) -/

/-- `BASE_STATS["hp"]`. -/
def BASE_HP : Int := 100

/-- `BASE_STATS["mp"]`. -/
def BASE_MP : Int := 50

/-- `CLASS_BONUSES[role]["hp_mod"]`. -/
def hp_mod : Role → Int
  | .warrior => 20
  | .mage => -10
  | .rogue => 0
  | .cleric => 10

/-- `CLASS_BONUSES[role]["mp_mod"]`. -/
def mp_mod : Role → Int
  | .warrior => -10
  | .mage => 30
  | .rogue => 0
  | .cleric => 15

/-- `MAX_INVENTORY_SIZE` game setting. -/
def MAX_INVENTORY_SIZE : Nat := 20

/-- `DEFENSE_DAMAGE_REDUCTION` game setting (the float 0.50 is exact). -/
def DEFENSE_DAMAGE_REDUCTION : ℚ := 1 / 2

/-! ## Hero methods (`models/hero.py`) -/

/-- `Hero.calculate_max_uptime`: base HP + class modifier + 5 per point of
error resilience + 5 per 3 collected recipe fragments. -/
def Hero.calculate_max_uptime (h : Hero) : Int :=
  BASE_HP + hp_mod h.role + (h.error_resilience : Int) * 5 + ((h.recipe_fragments / 3 : Nat) : Int) * 5

/-- `Hero.calculate_max_api_credits`: base MP + class modifier + 3 per point
of formula power. -/
def Hero.calculate_max_api_credits (h : Hero) : Int :=
  BASE_MP + mp_mod h.role + (h.formula_power : Int) * 3

/-- `Hero.get_armor_value`: the equipped armor protection (0 when unarmored)
plus 3 for each active `cached` status effect. -/
def Hero.get_armor_value (h : Hero) : Int :=
  h.status_effects.foldl
    (fun acc e => if e.effect_type = "cached" then acc + 3 else acc)
    (match h.equipped.armor with
     | some a => a.protection
     | none => 0)

/-- `Hero.add_to_inventory` inner loop: bump the quantity of the first entry
whose item id matches, or report `none` when no entry matches. -/
def bump_existing : List InventoryItem → String → Int → Option (List InventoryItem)
  | [], _, _ => none
  | e :: rest, id, q =>
      if e.item.id = id then some ({ e with quantity := e.quantity + q } :: rest)
      else (bump_existing rest id q).map (e :: ·)

/-- `Hero.add_to_inventory`: stack onto an existing entry with the same item
id; otherwise refuse when the inventory already has `MAX_INVENTORY_SIZE`
entries, else append a new entry.  Returns the updated hero and the Python
boolean result. -/
def Hero.add_to_inventory (h : Hero) (item : GameItem) (quantity : Int) : Hero × Bool :=
  match bump_existing h.inventory item.id quantity with
  | some inv => ({ h with inventory := inv }, true)
  | none =>
      if h.inventory.length ≥ MAX_INVENTORY_SIZE then (h, false)
      else ({ h with inventory := h.inventory ++ [{ item := item, quantity := quantity }] }, true)

/-! ## Status effect manager (`systems/effects.py`) -/

/-- Python `str.title()`: first letter of each alphabetic run uppercased, the
rest lowercased.  The boolean argument records whether the previous character
was alphabetic. -/
def pyTitleAux : Bool → List Char → List Char
  | _, [] => []
  | prevAlpha, c :: rest =>
      if c.isAlpha then
        (if prevAlpha then c.toLower else c.toUpper) :: pyTitleAux true rest
      else c :: pyTitleAux false rest

/-- `effect_type.replace("_", " ").title()`: the human-readable effect name
derived from its type tag in `apply_effect`. -/
def effect_display_name (ty : String) : String :=
  ⟨pyTitleAux false (ty.toList.map (fun c => if c = '_' then ' ' else c))⟩

/-- `StatusEffectManager.apply_effect` on the effect list: the first effect
with the same type keeps the numerically larger duration (updated only when
the new duration is strictly greater); when no effect of the type exists a
new effect is appended. -/
def apply_effect : List StatusEffect → String → Int → String → List StatusEffect
  | [], ty, dur, desc =>
      [{ name := effect_display_name ty, effect_type := ty, duration := dur, description := desc }]
  | e :: rest, ty, dur, desc =>
      if e.effect_type = ty then
        (if dur > e.duration then { e with duration := dur } else e) :: rest
      else e :: apply_effect rest ty dur desc

/-- `StatusEffectManager.remove_effect` on the effect list: remove the first
effect of the given type, reporting whether one was found. -/
def remove_effect : List StatusEffect → String → List StatusEffect × Bool
  | [], _ => ([], false)
  | e :: rest, ty =>
      if e.effect_type = ty then (rest, true)
      else
        let r := remove_effect rest ty
        (e :: r.1, r.2)

/-- The in-place decrement of `process_turn_effects`: permanent effects
(duration −1) are skipped, every other duration drops by 1. -/
def tick_effect (e : StatusEffect) : StatusEffect :=
  if e.duration = -1 then e else { e with duration := e.duration - 1 }

/-- The `effects_to_remove` list of `process_turn_effects`: the types of the
non-permanent effects whose decremented duration reached ≤ 0. -/
def expired_types (es : List StatusEffect) : List String :=
  (es.filter (fun e => !(e.duration == -1) && decide (e.duration - 1 ≤ 0))).map (·.effect_type)

/-- `StatusEffectManager.process_turn_effects` on the effect list: decrement
every non-permanent duration, then remove (first occurrence per type, in
order) the effects that expired. -/
def process_turn_effects (es : List StatusEffect) : List StatusEffect :=
  (expired_types es).foldl (fun acc ty => (remove_effect acc ty).1) (es.map tick_effect)

/-- `StatusEffectManager.get_damage_modifier`: ×1.25 per `buffered` effect,
×0.5 per `auth_expired` effect (floats 1.25 and 0.5 are exact). -/
def get_damage_modifier (h : Hero) : ℚ :=
  h.status_effects.foldl
    (fun m e =>
      if e.effect_type = "buffered" then m * (5 / 4)
      else if e.effect_type = "auth_expired" then m * (1 / 2)
      else m) 1

/-- `StatusEffectManager.get_mp_cost_modifier`: ×0.5 per `throttled` effect. -/
def get_mp_cost_modifier (h : Hero) : ℚ :=
  h.status_effects.foldl
    (fun m e => if e.effect_type = "throttled" then m * (1 / 2) else m) 1

/-! ## Combat system (`systems/combat.py`) -/

/-- The `Enemy | Hero` target union of `calculate_damage`, mirroring the
`isinstance` dispatch used to read the armor value. -/
inductive Target
  | enemy (e : Enemy)
  | hero (h : Hero)

/-- Armor lookup of `calculate_damage`: `target.armor` for an enemy,
`target.get_armor_value()` for a hero. -/
def Target.armor_value : Target → Int
  | .enemy e => e.armor
  | .hero h => h.get_armor_value

/-- `CombatSystem.calculate_damage`.  Oracles: `seq` feeds the weapon dice
roll, `crit` is the outcome of `critical_hit_check()`.  Base damage is the
weapon roll (1 when unarmed) plus `throughput // 5`, truncated after the
skill multiplier, doubled on a critical, and unless armor is ignored the
target armor is subtracted with the result clamped to a minimum of 1. -/
def calculate_damage (seq : Nat → Nat) (crit : Bool) (attacker_throughput : Nat)
    (weapon : Option Weapon) (target : Target) (skill_multiplier : ℚ)
    (ignore_armor : Bool) : Int × Bool :=
  let base0 : Int :=
    match weapon with
    | some w => (roll_dice seq w.damage_dice).1
    | none => 1
  let str_bonus : Int := ((attacker_throughput / 5 : Nat) : Int)
  let base1 := base0 + str_bonus
  let base2 := pyTrunc ((base1 : ℚ) * skill_multiplier)
  let base3 := if crit then base2 * 2 else base2
  let final_damage := if ignore_armor then base3 else max 1 (base3 - target.armor_value)
  (final_damage, crit)

/-- Result dictionary of `CombatSystem.hero_attack` (narrative messages
omitted). -/
structure AttackResult where
  success : Bool := true
  damage_dealt : Int := 0
  enemy_defeated : Bool := false
  xp_gained : Nat := 0
  gold_gained : Nat := 0
deriving DecidableEq, Repr

/-- The damage applied by `CombatSystem.hero_attack` once the immune gate
passes: the `calculate_damage` result scaled by the hero status-effect
damage modifier, truncated by Python `int()`. -/
def hero_damage_calc (seq : Nat → Nat) (crit : Bool) (hero : Hero) (target : Enemy)
    (skill_multiplier : ℚ) (ignore_armor : Bool) : Int :=
  pyTrunc (((calculate_damage seq crit hero.throughput hero.equipped.weapon
    (.enemy target) skill_multiplier ignore_armor).1 : ℚ) * get_damage_modifier hero)

/-- `CombatSystem.hero_attack`: the immune-until-examined gate returns a
failure result and touches nothing; otherwise the calculated damage is scaled
by the hero status-effect damage modifier (truncated), subtracted from the
enemy hp (clamped at 0), and a defeat increments the combat defeated counter
and reports the enemy rewards. -/
def hero_attack (seq : Nat → Nat) (crit : Bool) (hero : Hero) (target : Enemy)
    (combat_state : CombatState) (skill_multiplier : ℚ) (ignore_armor : Bool) :
    Enemy × CombatState × AttackResult :=
  if target.immune_until_examined && !target.is_examined then
    (target, combat_state,
      { success := false, damage_dealt := 0, enemy_defeated := false,
        xp_gained := 0, gold_gained := 0 })
  else
    let damage := hero_damage_calc seq crit hero target skill_multiplier ignore_armor
    let target1 := { target with hp := target.hp - damage }
    if target1.hp ≤ 0 then
      ({ target1 with hp := 0 },
       { combat_state with enemies_defeated := combat_state.enemies_defeated + 1 },
       { success := true, damage_dealt := damage, enemy_defeated := true,
         xp_gained := target.xp_reward, gold_gained := target.gold_reward })
    else
      (target1, combat_state,
       { success := true, damage_dealt := damage, enemy_defeated := false,
         xp_gained := 0, gold_gained := 0 })

/-- Result dictionary of `CombatSystem.enemy_attack` (messages omitted). -/
structure EnemyAttackResult where
  damage_dealt : Int := 0
  hero_defeated : Bool := false
deriving DecidableEq, Repr

/-- The damage pipeline of `CombatSystem.enemy_attack`: roll the enemy dice,
halve (truncating) when the hero is defending, subtract hero armor with a
minimum of 1 — but only inside the `armor > 0` branch. -/
def enemy_damage_calc (seq : Nat → Nat) (enemy : Enemy) (hero : Hero)
    (combat_state : CombatState) : Int :=
  let base_damage := (roll_dice seq enemy.damage_dice).1
  let damage1 :=
    if combat_state.hero_defending then pyTrunc ((base_damage : ℚ) * (1 - DEFENSE_DAMAGE_REDUCTION))
    else base_damage
  let armor := hero.get_armor_value
  if armor > 0 then max 1 (damage1 - armor) else damage1

/-- The rest of `CombatSystem.enemy_attack`: subtract the computed damage
from hero uptime, clamped at 0, and report defeat when it reaches 0. -/
def enemy_attack (seq : Nat → Nat) (enemy : Enemy) (hero : Hero)
    (combat_state : CombatState) : Hero × EnemyAttackResult :=
  let damage := enemy_damage_calc seq enemy hero combat_state
  let hero1 := { hero with uptime := hero.uptime - damage }
  if hero1.uptime ≤ 0 then
    ({ hero1 with uptime := 0 }, { damage_dealt := damage, hero_defeated := true })
  else
    (hero1, { damage_dealt := damage, hero_defeated := false })

/-- `CombatSystem.initialize_combat`: one turn-order slot for the hero and
each enemy; the `random.shuffle` is modelled by the permutation oracle. -/
def initialize_combat (shuffle : List String → List String) (enemies : List Enemy) :
    CombatState :=
  { active := true, enemies := enemies,
    turn_order := shuffle ("hero" :: (List.range enemies.length).map (fun i => "enemy_" ++ toString i)),
    current_turn_index := 0, round_num := 1, hero_defending := false,
    hero_used_error_handler := false, enemies_defeated := 0 }

/-- The enemy half of the `examine` tool handler in `server.py`: examining a
living enemy sets its `is_examined` flag (all other fields untouched). -/
def examine_enemy (e : Enemy) : Enemy := { e with is_examined := true }

/-! ## Progression system (`systems/progression.py`) -/

/-- Binary-search step for the integer square root, fuelled so that the
kernel can evaluate it on literals.  Maintains `lo² ≤ m < hi²`. -/
def sqrtGo (m : Nat) : Nat → Nat → Nat → Nat
  | 0, lo, _ => lo
  | f + 1, lo, hi =>
      if hi ≤ lo + 1 then lo
      else
        let mid := (lo + hi) / 2
        if mid * mid ≤ m then sqrtGo m f mid hi else sqrtGo m f lo mid

/-- Kernel-computable integer square root (proved equal to `Nat.sqrt` in
`mySqrt_eq_sqrt` below). -/
def mySqrt (m : Nat) : Nat := sqrtGo m (m + 2) 0 (m + 1)

/-- `ProgressionSystem.xp_required_for_level`: `int(100 * level ** 1.5)`.
The real value `100·L^1.5` equals `√(10000·L³)`, so its integer truncation
is exactly `⌊√(10000·L³)⌋` (exact real semantics of the float formula),
computed here by the verified integer square root. -/
def xp_required_for_level (level : Nat) : Nat :=
  mySqrt (10000 * level ^ 3)

/-- Total experience consumed by the level-up loop while climbing from level
`l0` to level `l1`: the sum of the per-level requirements. -/
def level_cost (l0 l1 : Nat) : Nat :=
  Finset.sum (Finset.Ico (l0 + 1) (l1 + 1)) xp_required_for_level

/-- `ProgressionSystem._apply_level_up`: role-specific stat growth, max
HP/MP recomputed from the new stats, current HP/MP fully restored, run once
per level gained (called with the level already incremented). -/
def apply_level_up (hero : Hero) : Hero :=
  let h1 :=
    match hero.role with
    | .warrior => { hero with throughput := hero.throughput + 2,
                              error_resilience := hero.error_resilience + 1 }
    | .mage => { hero with formula_power := hero.formula_power + 2,
                           rate_agility := hero.rate_agility + 1 }
    | .rogue => { hero with rate_agility := hero.rate_agility + 2,
                            throughput := hero.throughput + 1 }
    | .cleric => { hero with error_resilience := hero.error_resilience + 2,
                             formula_power := hero.formula_power + 1 }
  let h2 := { h1 with max_uptime := h1.calculate_max_uptime,
                      max_api_credits := h1.calculate_max_api_credits }
  { h2 with uptime := h2.max_uptime, api_credits := h2.max_api_credits }

/-- The `while hero.xp >= xp_required_for_level(hero.level + 1)` loop of
`ProgressionSystem.add_experience`, written with an explicit fuel bound for
structural recursion.  Each iteration consumes at least
`xp_required_for_level 1 = 100 > 0` experience, so any fuel exceeding the
current experience makes the zero-fuel branch unreachable (certified by the
loop postcondition `level_loop_spec` below). -/
def level_loop : Nat → Hero → Bool → Hero × Bool
  | 0, hero, leveled_up => (hero, leveled_up)
  | fuel + 1, hero, leveled_up =>
      if xp_required_for_level (hero.level + 1) ≤ hero.xp then
        level_loop fuel
          (apply_level_up
            { hero with xp := hero.xp - xp_required_for_level (hero.level + 1),
                        level := hero.level + 1 })
          true
      else (hero, leveled_up)

/-- `ProgressionSystem.add_experience`: append the grant to the running
total, then run the level-up loop; returns the updated hero and the
`leveled_up` flag. -/
def add_experience (hero : Hero) (xp : Nat) : Hero × Bool :=
  level_loop (hero.xp + xp + 1) { hero with xp := hero.xp + xp } false

/-- `ProgressionSystem.add_gold`: `hero.gold += amount`, with no clamp. -/
def add_gold (hero : Hero) (amount : Int) : Hero :=
  { hero with gold := hero.gold + amount }

/-- `ProgressionSystem.add_recipe_fragment`: increment the counter; every
multiple of 3 recomputes (and thereby raises) max uptime.  Returns the
updated hero and whether the bonus fired. -/
def add_recipe_fragment (hero : Hero) : Hero × Bool :=
  let h1 := { hero with recipe_fragments := hero.recipe_fragments + 1 }
  if h1.recipe_fragments % 3 = 0 then
    ({ h1 with max_uptime := h1.calculate_max_uptime }, true)
  else (h1, false)

/-! ## Dungeon generator (`systems/generation.py`) -/

/-- Room type (`models/world.py` `room_type` literal). -/
inductive RoomType
  | corridor | chamber | treasure | trap | boss
deriving DecidableEq, Repr

/-- `Room` model (`models/world.py`); exits are an association list from
direction to room id. -/
structure Room where
  id : String
  room_type : RoomType
  system_name : String
  description : String
  exits : List (String × String) := []
  items : List GameItem := []
  enemies : List Enemy := []
  is_cleared : Bool := false
  is_discovered : Bool := false
  depth : Nat := 1
deriving DecidableEq, Repr

/-- The loot category drawn by `random.choice(["weapons", "armor",
"consumables"])` in `_generate_loot`. -/
inductive LootCat
  | weapons | armor | consumables
deriving DecidableEq, Repr

/-- The read-only item template tables loaded from `data/items.json`
(`self.item_data`), keyed by category. -/
structure ItemData where
  weapons : List Weapon
  armor : List Armor
  consumables : List Consumable

/-- Randomness oracle for `_generate_loot`: per slot, the chosen category,
the uniform `random.random()` draw for each candidate of the pool, and the
index drawn by `random.choice` among the surviving candidates (`pick` is
reduced modulo the number of survivors). -/
structure LootOracle where
  cat : Nat → LootCat
  uni : Nat → Nat → ℚ
  pick : Nat → Nat

/-- One slot of `_generate_loot`: filter the chosen category pool by an
independent `random.random() < drop_rate` trial per candidate, then choose
uniformly among survivors; an empty surviving pool skips the slot.  The
`min_tier` argument is carried exactly as in the source, which never reads
it. -/
def generate_loot_slot (data : ItemData) (orc : LootOracle) (depth : Nat)
    (min_tier : Tier) (slot : Nat) : Option GameItem :=
  let pool : List GameItem :=
    match orc.cat slot with
    | .weapons => data.weapons.map GameItem.weapon
    | .armor => data.armor.map GameItem.armor
    | .consumables => data.consumables.map GameItem.consumable
  let drop_rate : GameItem → ℚ := fun it =>
    match it with
    | .weapon w => w.drop_rate
    | .armor a => a.drop_rate
    | .consumable c => c.drop_rate
  let available := (pool.enum.filter (fun p => decide (orc.uni slot p.1 < drop_rate p.2))).map (·.2)
  match available with
  | [] => none
  | a :: rest => some ((a :: rest).getD ((orc.pick slot) % (rest.length + 1)) a)

/-- `DungeonGenerator._generate_loot`: up to `quantity` slots, each generated
independently; slots whose drop-rate filter leaves no candidate are
skipped, so the count is a maximum. -/
def generate_loot (data : ItemData) (orc : LootOracle) (depth : Nat)
    (min_tier : Tier) (quantity : Nat) : List GameItem :=
  (List.range quantity).filterMap (generate_loot_slot data orc depth min_tier)

/-- The enemy template tables loaded from `data/enemies.json`
(`self.enemy_data`), keyed by tier. -/
structure EnemyData where
  common : List Enemy
  uncommon : List Enemy
  rare : List Enemy
  boss : List Enemy

/-- Randomness oracle for `_generate_enemies`: the drawn enemy count, the
mixed-tier coin at depth > 9, and per-slot template choice (reduced modulo
the pool size). -/
structure EnemyOracle where
  count : Nat
  mixedRare : Bool
  pick : Nat → Nat

/-- Depth scaling of `_generate_enemies`: `int(hp * (1 + 0.1 * depth))`
applied to base hp, stored as both current and max hp. -/
def scale_enemy (depth : Nat) (e : Enemy) : Enemy :=
  let hp := pyTrunc ((e.hp : ℚ) * (1 + (depth : ℚ) / 10))
  { e with hp := hp, max_hp := hp }

/-- `DungeonGenerator._generate_enemies`: tier and count band chosen from
depth, templates drawn from the tier pool, hp scaled by depth.  An empty
template pool yields no enemies (`random.choice` on an empty pool would
raise in Python; the modulo-indexing model instead never selects from an
empty list). -/
def generate_enemies (data : EnemyData) (orc : EnemyOracle) (depth : Nat) : List Enemy :=
  let pool :=
    if depth ≤ 3 then data.common
    else if depth ≤ 6 then data.uncommon
    else if depth ≤ 9 then data.rare
    else if orc.mixedRare then data.rare else data.uncommon
  match pool with
  | [] => []
  | p :: ps =>
      (List.range orc.count).map
        (fun i => scale_enemy depth ((p :: ps).getD ((orc.pick i) % (ps.length + 1)) p))

/-- `DungeonGenerator._generate_boss_enemy`: boss index `(depth // 5) − 1`,
clamped to the last boss; hp scaled by `1 + 0.05 * depth`. -/
def generate_boss_enemy (data : EnemyData) (depth : Nat) : List Enemy :=
  match data.boss with
  | [] => []
  | b :: bs =>
      let idx := min (depth / 5 - 1) bs.length
      let boss := (b :: bs).getD idx b
      let hp := pyTrunc ((boss.hp : ℚ) * (1 + (depth : ℚ) / 20))
      [{ boss with hp := hp, max_hp := hp }]

/-- Randomness oracle for `generate_room`: the weighted room-type draw, the
room id suffix, and the loot/enemy quantity draws (constrained in theorems
to the `randint` bounds of the source). -/
structure RoomOracle where
  rtype : RoomType
  idNum : Nat
  lootQty : Nat
  enemyOracle : EnemyOracle
  lootOracle : LootOracle
  system_name : String
  description : String

/-- String form of a room type, as used in the generated room id. -/
def RoomType.tag : RoomType → String
  | .corridor => "corridor"
  | .chamber => "chamber"
  | .treasure => "treasure"
  | .trap => "trap"
  | .boss => "boss"

/-- `DungeonGenerator.generate_room`: forced boss type at `depth % 5 == 0`
(when no type is supplied), then per-type population — corridor/chamber get
enemies plus 0–2 common loot, treasure gets 2–4 "uncommon" loot and no
enemies, trap gets enemies only, boss gets the single boss enemy. -/
def generate_room (enemy_data : EnemyData) (item_data : ItemData) (orc : RoomOracle)
    (depth : Nat) (room_type : Option RoomType) : Room :=
  let rt :=
    match room_type with
    | some t => t
    | none => if depth % 5 = 0 then RoomType.boss else orc.rtype
  let base : Room :=
    { id := rt.tag ++ "_" ++ toString depth ++ "_" ++ toString orc.idNum,
      room_type := rt, system_name := orc.system_name,
      description := orc.description, depth := depth }
  match rt with
  | .corridor =>
      { base with enemies := generate_enemies enemy_data orc.enemyOracle depth,
                  items := generate_loot item_data orc.lootOracle depth Tier.common orc.lootQty }
  | .chamber =>
      { base with enemies := generate_enemies enemy_data orc.enemyOracle depth,
                  items := generate_loot item_data orc.lootOracle depth Tier.common orc.lootQty }
  | .treasure =>
      { base with items := generate_loot item_data orc.lootOracle depth Tier.uncommon orc.lootQty }
  | .trap =>
      { base with enemies := generate_enemies enemy_data orc.enemyOracle depth }
  | .boss =>
      { base with enemies := generate_boss_enemy enemy_data depth }

/-! ## The `attack` tool handler (`server.py`) -/

/-- Prefix test on character lists (pattern first), the workhorse of the
Python substring operator. -/
def charsStartWith : List Char → List Char → Bool
  | [], _ => true
  | _ :: _, [] => false
  | a :: as, b :: bs => a == b && charsStartWith as bs

/-- Containment of a character pattern in a text (Python `pat in text`). -/
def charsContain (pat : List Char) : List Char → Bool
  | [] => pat.isEmpty
  | c :: rest => charsStartWith pat (c :: rest) || charsContain pat rest

/-- Python `needle in hay` on strings: contiguous substring test. -/
def py_in (needle hay : String) : Bool :=
  charsContain needle.toList hay.toList

/-- ASCII lowering of a string (Python `str.lower()`). -/
def pyLowerStr (s : String) : String :=
  ⟨s.toList.map Char.toLower⟩

/-- The enemy-selection predicate of the `attack` handler:
`target.lower() in e.name.lower() and e.hp > 0`. -/
def enemy_matches (target : String) (e : Enemy) : Bool :=
  py_in (pyLowerStr target) (pyLowerStr e.name) && decide (0 < e.hp)

/-- A skill record from `data/skills.json` as read by the `attack` handler:
id, resource cost, damage multiplier and armor-ignore flag (`description` and
display name omitted); the last two fields default as in the handler
`skill_info.get` calls. -/
structure SkillInfo where
  id : String
  cost : ℚ
  damage_multiplier : ℚ := 1
  ignore_armor : Bool := false

/-- The slice of `GameState` the `attack` handler touches: the hero, the
current room (`get_current_room()`), and the optional combat state. -/
structure GameState where
  hero : Hero
  room : Room
  combat : Option CombatState := none

/-- `GameState.is_in_combat`: a combat exists and is active. -/
def GameState.is_in_combat (gs : GameState) : Bool :=
  match gs.combat with
  | some c => c.active
  | none => false

/-- Which branch of the `attack` handler produced the response. -/
inductive AttackTag
  | invalid_target
  | skill_not_found
  | insufficient_credits
  | victory
  | game_over
  | continued
deriving DecidableEq, Repr

/-- The enemy-turn loop at the end of the `attack` handler: every living
enemy attacks in order, with an early game-over return as soon as the hero
is defeated.  `eseq i` feeds the dice of the `i`-th attacking enemy. -/
def enemy_turn (eseq : Nat → Nat → Nat) (combat : CombatState) :
    Nat → List Enemy → Hero → Hero × Bool
  | _, [], hero => (hero, false)
  | i, e :: rest, hero =>
      let res := enemy_attack (eseq i) e hero combat
      if res.2.hero_defeated then (res.1, true)
      else enemy_turn eseq combat (i + 1) rest res.1

/-- The hero after the handler deducts the (modifier-scaled, truncated)
skill resource cost: `hero.api_credits -= mp_cost`. -/
def charge_skill_cost (gs1 : GameState) (sk : SkillInfo) : Hero :=
  { gs1.hero with api_credits :=
      gs1.hero.api_credits - pyTrunc (sk.cost * get_mp_cost_modifier gs1.hero) }

/-- The tail of the `attack` handler once the target enemy and the skill
have been resolved and combat initialized: charge the skill cost, run
`CombatSystem.hero_attack`, then either grant the summed room rewards on a
full clear or let every living enemy counterattack. -/
def attack_resolve (seq : Nat → Nat) (crit : Bool) (eseq : Nat → Nat → Nat)
    (gs1 : GameState) (idx : Nat) (enemy : Enemy) (combat0 : CombatState)
    (sk : SkillInfo) : GameState × AttackTag :=
  let mp_cost := pyTrunc (sk.cost * get_mp_cost_modifier gs1.hero)
  if gs1.hero.api_credits < mp_cost then (gs1, .insufficient_credits)
  else
    let hero1 := charge_skill_cost gs1 sk
    let out := hero_attack seq crit hero1 enemy combat0 sk.damage_multiplier sk.ignore_armor
    let enemy1 := out.1
    let combat1 := out.2.1
    let room1 := { gs1.room with enemies := gs1.room.enemies.set idx enemy1 }
    if room1.enemies.all (fun e => decide (e.hp ≤ 0)) then
      let total_xp : Nat := (room1.enemies.map (fun e => e.xp_reward)).sum
      let total_gold : Nat := (room1.enemies.map (fun e => e.gold_reward)).sum
      let hero2 := add_gold (add_experience hero1 total_xp).1 (total_gold : Int)
      ({ hero := hero2, room := { room1 with is_cleared := true }, combat := none }, .victory)
    else
      let turn := enemy_turn eseq combat1 0 (room1.enemies.filter (fun e => decide (0 < e.hp))) hero1
      if turn.2 then
        ({ hero := turn.1, room := room1, combat := some combat1 }, .game_over)
      else
        ({ hero := turn.1, room := room1, combat := some combat1 }, .continued)

/-- The `attack` tool handler of `server.py` (front half): find the first
living enemy whose lowered name contains the lowered target, initialize
combat when none is active, look up the skill, then hand over to
`attack_resolve`. -/
def attack_handler (seq : Nat → Nat) (crit : Bool) (shuffle : List String → List String)
    (eseq : Nat → Nat → Nat) (skills : List SkillInfo) (gs : GameState)
    (target : String) (skill : String) : GameState × AttackTag :=
  match gs.room.enemies.enum.find? (fun p => enemy_matches target p.2) with
  | none => (gs, .invalid_target)
  | some (idx, enemy) =>
    let combat0 : CombatState :=
      if gs.is_in_combat then gs.combat.getD (initialize_combat shuffle [])
      else initialize_combat shuffle (gs.room.enemies.filter (fun e => decide (0 < e.hp)))
    let gs1 := { gs with combat := some combat0 }
    match skills.find? (fun s => s.id = skill) with
    | none => (gs1, .skill_not_found)
    | some sk => attack_resolve seq crit eseq gs1 idx enemy combat0 sk

/-! ## Concrete fixtures used by witnesses and counterexamples -/

/-- A plain 2d6 weapon. -/
def basicWeapon : Weapon :=
  { id := "w_basic", name := "Basic Connector", description := "", tier := .common,
    damage_dice := "2d6", drop_rate := 1 }

/-- A common-tier weapon used to exhibit untiered treasure loot. -/
def commonLootWeapon : Weapon :=
  { id := "w_common", name := "Rusty Connector", description := "", tier := .common,
    damage_dice := "1d4", drop_rate := 1 }

/-- Basic armor with protection 2. -/
def basicArmor : Armor :=
  { id := "a_basic", name := "Basic Logging", description := "", tier := .common,
    protection := 2, drop_rate := 1 }

/-- An enemy with armor 2, used in the C1 example scenario. -/
def armoredEnemy : Enemy :=
  { id := "e_armored", name := "Rate Limit Guardian", description := "", hp := 30,
    max_hp := 30, damage_dice := "1d6", armor := 2, xp_reward := 10, gold_reward := 5,
    loot_table := "common", tier := .common }

/-- A weak enemy whose dice always total at least 1. -/
def weakEnemy : Enemy :=
  { id := "e_weak", name := "Null Pointer Bug", description := "", hp := 1,
    max_hp := 1, damage_dice := "1d4", armor := 0, xp_reward := 10, gold_reward := 5,
    loot_table := "common", tier := .common }

/-- An enemy flagged immune-until-examined. -/
def immuneEnemy : Enemy :=
  { id := "e_immune", name := "Undocumented API", description := "", hp := 20,
    max_hp := 20, damage_dice := "1d6", armor := 0, xp_reward := 25, gold_reward := 10,
    loot_table := "uncommon", tier := .uncommon, immune_until_examined := true }

/-- A fresh warrior hero with all model defaults (level 1, 0 XP, 0 gold,
empty inventory, nothing equipped). -/
def freshWarrior : Hero := { name := "TestWarrior", role := .warrior }

/-- The fresh warrior wearing `basicArmor`. -/
def armoredWarrior : Hero :=
  { freshWarrior with equipped := { armor := some basicArmor } }

/-- A combat state with the hero defending. -/
def defendingCombat : CombatState := { enemies := [weakEnemy], hero_defending := true }

/-- A combat state with the hero not defending. -/
def neutralCombat : CombatState := { enemies := [weakEnemy] }

/-- An `auth_expired` debuff, which halves outgoing damage. -/
def authExpiredEffect : StatusEffect :=
  { name := "Auth Expired", effect_type := "auth_expired", duration := 3,
    description := "halved damage" }

/-- The fresh warrior carrying the `auth_expired` damage debuff. -/
def debuffedWarrior : Hero :=
  { freshWarrior with status_effects := [authExpiredEffect] }

/-- The immune-until-examined enemy with armor raised to 8. -/
def armoredImmuneEnemy : Enemy := { immuneEnemy with armor := 8 }

/-- A permanent (duration −1) status effect. -/
def permanentEffect : StatusEffect :=
  { name := "Transformed", effect_type := "transformed", duration := -1,
    description := "permanent" }

/-- Item tables holding a single common-tier weapon. -/
def commonOnlyItems : ItemData :=
  { weapons := [commonLootWeapon], armor := [], consumables := [] }

/-- Empty enemy template tables (treasure rooms never consult them). -/
def emptyEnemyData : EnemyData :=
  { common := [], uncommon := [], rare := [], boss := [] }

/-- Loot oracle that always picks the weapons category, draws 0 for every
drop-rate trial (so every candidate survives) and picks the first
survivor. -/
def firstWeaponOracle : LootOracle :=
  { cat := fun _ => .weapons, uni := fun _ _ => 0, pick := fun _ => 0 }

/-- Room oracle forcing two treasure loot slots. -/
def treasureOracle : RoomOracle :=
  { rtype := .treasure, idNum := 1, lootQty := 2,
    enemyOracle := { count := 0, mixedRare := false, pick := fun _ => 0 },
    lootOracle := firstWeaponOracle, system_name := "Vault", description := "Shiny" }

/-- A game state whose current room has no enemies (so any attack reports an
invalid target). -/
def emptyRoomState : GameState :=
  { hero := freshWarrior,
    room := { id := "start_0", room_type := .corridor, system_name := "Hub",
              description := "start", depth := 1 } }

/-- The basic attack skill: cost 0, multiplier 1, no armor ignore. -/
def basicAttackSkill : SkillInfo := { id := "basic_attack", cost := 0 }

/-! # Theorems

First the correctness of the integer square root, then per-component helper
lemmas, then one theorem per specification claim. -/

theorem sqrtGo_spec (m : Nat) :
    ∀ f lo hi, lo * lo ≤ m → m < hi * hi → hi ≤ lo + f →
      sqrtGo m f lo hi * sqrtGo m f lo hi ≤ m ∧
      m < (sqrtGo m f lo hi + 1) * (sqrtGo m f lo hi + 1) := by
  intro f
  induction f with
  | zero =>
      intro lo hi h1 h2 h3
      simp only [sqrtGo]
      exact ⟨h1, by nlinarith⟩
  | succ f ih =>
      intro lo hi h1 h2 h3
      rw [sqrtGo]
      by_cases hle : hi ≤ lo + 1
      · simp only [hle, if_true]
        exact ⟨h1, by nlinarith⟩
      · simp only [hle, if_false]
        by_cases hmid : ((lo + hi) / 2) * ((lo + hi) / 2) ≤ m
        · simp only [hmid, if_true]
          exact ih _ hi hmid h2 (by omega)
        · simp only [hmid, if_false]
          exact ih lo _ h1 (by omega) (by omega)

theorem mySqrt_spec (m : Nat) :
    mySqrt m * mySqrt m ≤ m ∧ m < (mySqrt m + 1) * (mySqrt m + 1) :=
  sqrtGo_spec m (m + 2) 0 (m + 1) (by omega) (by nlinarith) (by omega)

theorem mySqrt_eq_of (k m : Nat) (h1 : k * k ≤ m) (h2 : m < (k + 1) * (k + 1)) :
    mySqrt m = k := by
  have h := mySqrt_spec m
  nlinarith [h.1, h.2]

theorem mySqrt_eq_sqrt (m : Nat) : mySqrt m = Nat.sqrt m := by
  have h := mySqrt_spec m
  have ha : mySqrt m ≤ Nat.sqrt m := Nat.le_sqrt.2 h.1
  have hb : Nat.sqrt m < mySqrt m + 1 := Nat.sqrt_lt.2 h.2
  omega

/-! ## Dice utility: parser sanity checks and the C8 claim -/

theorem parse_dice_plain : parse_dice_notation "2d6" = some (2, 6, 0) := by decide

theorem parse_dice_mixed : parse_dice_notation " 3D10-4x" = some (3, 10, -4) := by decide

theorem parse_dice_dangling_sign : parse_dice_notation "2d6+" = some (2, 6, 0) := by decide

theorem parse_dice_number : parse_dice_notation "7" = none := by decide

theorem pyParseInt_signed : pyParseInt " -42 " = some (-42) := by decide

theorem pyParseInt_underscore : pyParseInt "1_000" = some 1000 := by decide

theorem pyParseInt_garbage : pyParseInt "abc" = none := by decide

theorem roll_dice_literal : roll_dice (fun _ => 1) "  17 " = (17, []) := by decide

theorem roll_dice_garbage : roll_dice (fun _ => 1) "oops" = (0, []) := by decide

theorem roll_dice_eq_some {s : String} {n m : Nat} {k : Int} (seq : Nat → Nat)
    (h : parse_dice_notation s = some (n, m, k)) :
    roll_dice seq s =
      (max 0 ((((List.range n).map seq).sum : Int) + k), (List.range n).map seq) := by
  unfold roll_dice
  rw [h]

theorem roll_dice_eq_none {s : String} (seq : Nat → Nat)
    (h : parse_dice_notation s = none) :
    roll_dice seq s =
      (match pyParseInt s with
       | some v => (v, [])
       | none => (0, [])) := by
  unfold roll_dice
  rw [h]

/-- C8: for every dice notation `NdM+K`/`NdM-K` with `N ≥ 1`, `M ≥ 1` and a
valid random source, `roll_dice` returns a roll list of length `N` with each
value in `[1, M]` and total `max(0, sum(rolls) + K)`; for every string not
matching dice notation it returns the literal integer value with an empty
roll list when the string parses as an integer, and `(0, [])` otherwise
(totality of the Lean function models the no-error guarantee). -/
theorem roll_dice_contract :
    (∀ (s : String) (n m : Nat) (k : Int) (seq : Nat → Nat),
      parse_dice_notation s = some (n, m, k) →
      1 ≤ n → 1 ≤ m →
      (∀ i, i < n → 1 ≤ seq i ∧ seq i ≤ m) →
      (roll_dice seq s).2.length = n ∧
      (∀ r ∈ (roll_dice seq s).2, 1 ≤ r ∧ r ≤ m) ∧
      (roll_dice seq s).1 = max 0 (((roll_dice seq s).2.sum : Int) + k)) ∧
    (∀ (s : String) (seq : Nat → Nat),
      parse_dice_notation s = none →
      (∀ v, pyParseInt s = some v → roll_dice seq s = (v, [])) ∧
      (pyParseInt s = none → roll_dice seq s = (0, []))) := by
  constructor
  · intro s n m k seq hparse hn hm hseq
    rw [roll_dice_eq_some seq hparse]
    refine ⟨by simp, ?_, by simp⟩
    intro r hr
    simp only [List.mem_map, List.mem_range] at hr
    obtain ⟨i, hi, rfl⟩ := hr
    exact hseq i hi
  · intro s seq hparse
    rw [roll_dice_eq_none seq hparse]
    constructor
    · intro v hv
      rw [hv]
    · intro hv
      rw [hv]

/-- Witness for C8 at the concrete notation `"2d6-20"` with all dice rolling
1: two rolls, each within `[1, 6]`, and the total is clamped at 0. -/
theorem roll_dice_contract_witness :
    (roll_dice (fun _ => 1) "2d6-20").2.length = 2 ∧
    (∀ r ∈ (roll_dice (fun _ => 1) "2d6-20").2, 1 ≤ r ∧ r ≤ 6) ∧
    (roll_dice (fun _ => 1) "2d6-20").1 =
      max 0 (((roll_dice (fun _ => 1) "2d6-20").2.sum : Int) + (-20)) :=
  roll_dice_contract.1 "2d6-20" 2 6 (-20) (fun _ => 1) (by decide) (by decide) (by decide)
    (fun i _ => ⟨Nat.le_refl 1, by simp⟩)

/-! ## Truncation helpers -/

theorem pyTrunc_intCast (x : Int) : pyTrunc ((x : ℚ)) = x := by
  unfold pyTrunc
  by_cases h : (x : ℚ) < 0
  · rw [if_pos h, show (-(x : ℚ)) = (((-x : Int)) : ℚ) by push_cast; ring,
      Int.floor_intCast]
    ring
  · rw [if_neg h, Int.floor_intCast]

theorem pyTrunc_mul_one (x : Int) : pyTrunc ((x : ℚ) * 1) = x := by
  rw [mul_one, pyTrunc_intCast]

/-! ## C1: hero attack damage formula -/

/-- C1: for every attack, base damage is the equipped weapon dice roll (or 1
unarmed) plus `offense // 5`, multiplied by the skill multiplier (truncated
toward zero, Python `int()`), doubled on a critical hit; unless the skill
ignores armor the target armor is subtracted and the result clamped to a
minimum of 1.  In particular, offense 14, weapon rolls summing to 7, armor
2, no critical and multiplier 1 yield exactly 7 final damage. -/
theorem calculate_damage_formula :
    (∀ (seq : Nat → Nat) (crit : Bool) (thr : Nat) (w : Option Weapon)
       (t : Target) (mult : ℚ),
      calculate_damage seq crit thr w t mult true =
        ((if crit then 2 else 1) *
          pyTrunc ((((match w with
                      | some wp => (roll_dice seq wp.damage_dice).1
                      | none => 1) + ((thr / 5 : Nat) : Int) : Int) : ℚ) * mult), crit) ∧
      calculate_damage seq crit thr w t mult false =
        (max 1 ((if crit then 2 else 1) *
          pyTrunc ((((match w with
                      | some wp => (roll_dice seq wp.damage_dice).1
                      | none => 1) + ((thr / 5 : Nat) : Int) : Int) : ℚ) * mult)
          - t.armor_value), crit)) ∧
    calculate_damage (fun i => if i = 0 then 3 else 4) false 14 (some basicWeapon)
      (.enemy armoredEnemy) 1 false = (7, false) := by
  constructor
  · intro seq crit thr w t mult
    cases crit <;> simp [calculate_damage, mul_comm]
  · have hroll : (roll_dice (fun i => if i = 0 then 3 else 4) "2d6").1 = 7 := by decide
    simp only [calculate_damage, basicWeapon, Target.armor_value, armoredEnemy, hroll]
    norm_num [pyTrunc]

/-! ## C2: enemy attack damage floor and health clamp -/

/-- The enemy-attack damage floor fails at armor 0: a defending unarmored
hero hit by a dice total of 1 takes `int(1 * 0.5) = 0` damage, because the
minimum-1 clamp sits inside the `armor > 0` branch.  This refutes the claim
that every enemy attack deals at least 1 damage for any armor value ≥ 0. -/
theorem enemy_attack_zero_damage :
    (enemy_attack (fun _ => 1) weakEnemy freshWarrior defendingCombat).2.damage_dealt = 0 := by
  have hroll : (roll_dice (fun _ => 1) "1d4").1 = 1 := by decide
  have harm : freshWarrior.get_armor_value = 0 := by decide
  have hcalc : enemy_damage_calc (fun _ => 1) weakEnemy freshWarrior defendingCombat = 0 := by
    simp only [enemy_damage_calc, weakEnemy, defendingCombat, harm, hroll]
    norm_num [pyTrunc, DEFENSE_DAMAGE_REDUCTION]
  simp only [enemy_attack, hcalc]
  norm_num [freshWarrior]

/-- C2 (amended): the minimum-1 damage clamp holds whenever the hero total
armor value is positive (with zero armor the damage can be 0, see
`enemy_attack_zero_damage`), and the hero health is always clamped at 0:
the resulting uptime equals `max 0 (uptime − damage)`. -/
theorem enemy_attack_damage (seq : Nat → Nat) (enemy : Enemy) (hero : Hero)
    (cs : CombatState) :
    (enemy_attack seq enemy hero cs).2.damage_dealt =
      enemy_damage_calc seq enemy hero cs := by
  simp only [enemy_attack]
  split <;> rfl

theorem enemy_attack_uptime (seq : Nat → Nat) (enemy : Enemy) (hero : Hero)
    (cs : CombatState) :
    (enemy_attack seq enemy hero cs).1.uptime =
      max 0 (hero.uptime - (enemy_attack seq enemy hero cs).2.damage_dealt) := by
  simp only [enemy_attack]
  split <;> rename_i h <;> dsimp only at h ⊢
  · exact (max_eq_left (by omega)).symm
  · exact (max_eq_right (by omega)).symm

/-- C2 (amended): the minimum-1 damage clamp holds whenever the hero total
armor value is positive (with zero armor the damage can be 0, see
`enemy_attack_zero_damage`), and the hero health is always clamped at 0:
the resulting uptime equals `max 0 (uptime − damage)` and is never
negative. -/
theorem enemy_attack_spec :
    ∀ (seq : Nat → Nat) (enemy : Enemy) (hero : Hero) (cs : CombatState),
      (0 < hero.get_armor_value →
        1 ≤ (enemy_attack seq enemy hero cs).2.damage_dealt) ∧
      (enemy_attack seq enemy hero cs).1.uptime =
        max 0 (hero.uptime - (enemy_attack seq enemy hero cs).2.damage_dealt) ∧
      0 ≤ (enemy_attack seq enemy hero cs).1.uptime := by
  intro seq enemy hero cs
  refine ⟨?_, enemy_attack_uptime seq enemy hero cs, ?_⟩
  · intro ha
    rw [enemy_attack_damage]
    unfold enemy_damage_calc
    dsimp only
    rw [if_pos ha]
    exact le_max_left (1 : ℤ) _
  · rw [enemy_attack_uptime]
    exact le_max_left (0 : ℤ) _

/-- Witness for C2 at a concrete armored hero: the damage floor applies. -/
theorem enemy_attack_spec_witness :
    1 ≤ (enemy_attack (fun _ => 1) weakEnemy armoredWarrior neutralCombat).2.damage_dealt :=
  (enemy_attack_spec (fun _ => 1) weakEnemy armoredWarrior neutralCombat).1 (by decide)

/-! ## C3: the immune-until-examined gate -/

theorem calculate_damage_min_one (seq : Nat → Nat) (crit : Bool) (thr : Nat)
    (w : Option Weapon) (t : Target) (mult : ℚ) :
    1 ≤ (calculate_damage seq crit thr w t mult false).1 := by
  simp only [calculate_damage]
  exact le_max_left (1 : ℤ) _

theorem hero_damage_calc_mod_one (seq : Nat → Nat) (crit : Bool) (hero : Hero)
    (target : Enemy) (mult : ℚ) (ia : Bool) (h : get_damage_modifier hero = 1) :
    hero_damage_calc seq crit hero target mult ia =
      (calculate_damage seq crit hero.throughput hero.equipped.weapon
        (.enemy target) mult ia).1 := by
  unfold hero_damage_calc
  rw [h, pyTrunc_mul_one]

/-- The claim that, once an enemy is examined, an otherwise identical attack
always reduces its health is false without qualification: a hero carrying an
`auth_expired` effect (damage modifier 0.5) basic-attacking the examined
armor-8 enemy deals `int(max(1, 3 − 8) · 0.5) = 0` damage, leaving the
enemy hp (20) unchanged. -/
theorem examined_attack_no_health_change :
    (hero_attack (fun _ => 1) false debuffedWarrior (examine_enemy armoredImmuneEnemy)
       neutralCombat 1 false).1.hp = armoredImmuneEnemy.hp ∧
    (hero_attack (fun _ => 1) false debuffedWarrior (examine_enemy armoredImmuneEnemy)
       neutralCombat 1 false).2.2.damage_dealt = 0 ∧
    0 < armoredImmuneEnemy.hp := by
  have hcd : (calculate_damage (fun _ => 1) false debuffedWarrior.throughput
      debuffedWarrior.equipped.weapon (.enemy (examine_enemy armoredImmuneEnemy)) 1 false).1
      = 1 := by
    simp only [calculate_damage, debuffedWarrior, freshWarrior, Target.armor_value,
      examine_enemy, armoredImmuneEnemy, immuneEnemy]
    norm_num [pyTrunc]
  have hmod : get_damage_modifier debuffedWarrior = 1 / 2 := by
    norm_num [get_damage_modifier, debuffedWarrior, freshWarrior, authExpiredEffect]
    decide
  have hcalc : hero_damage_calc (fun _ => 1) false debuffedWarrior
      (examine_enemy armoredImmuneEnemy) 1 false = 0 := by
    unfold hero_damage_calc
    rw [hcd, hmod]
    norm_num [pyTrunc]
  have hgate : ((examine_enemy armoredImmuneEnemy).immune_until_examined &&
      !(examine_enemy armoredImmuneEnemy).is_examined) = false := by decide
  simp only [hero_attack, hgate, Bool.false_eq_true, if_false, hcalc]
  norm_num [examine_enemy, armoredImmuneEnemy, immuneEnemy]

/-- C3 (amended): an attack against an immune, unexamined enemy fails with
zero damage and leaves the enemy and the combat state untouched; after the
examine action marks the enemy examined, an otherwise identical basic
attack (multiplier 1, armor not ignored) strictly reduces the enemy hp
provided the hero carries no damage-modifying status effects (status damage
modifier 1) — without that proviso a damage-halving debuff can truncate the
clamped damage to 0, see `examined_attack_no_health_change`. -/
theorem immune_gate_spec :
    (∀ (seq : Nat → Nat) (crit : Bool) (hero : Hero) (target : Enemy)
       (cs : CombatState) (mult : ℚ) (ia : Bool),
      target.immune_until_examined = true → target.is_examined = false →
      hero_attack seq crit hero target cs mult ia =
        (target, cs,
          { success := false, damage_dealt := 0, enemy_defeated := false,
            xp_gained := 0, gold_gained := 0 })) ∧
    (∀ (seq : Nat → Nat) (crit : Bool) (hero : Hero) (target : Enemy) (cs : CombatState),
      0 < target.hp → get_damage_modifier hero = 1 →
      (hero_attack seq crit hero (examine_enemy target) cs 1 false).1.hp < target.hp) := by
  constructor
  · intro seq crit hero target cs mult ia him hex
    simp [hero_attack, him, hex]
  · intro seq crit hero target cs hhp hmod
    have hge : 1 ≤ hero_damage_calc seq crit hero (examine_enemy target) 1 false := by
      rw [hero_damage_calc_mod_one seq crit hero (examine_enemy target) 1 false hmod]
      exact calculate_damage_min_one seq crit hero.throughput hero.equipped.weapon
        (.enemy (examine_enemy target)) 1
    have hgate : ((examine_enemy target).immune_until_examined &&
        !(examine_enemy target).is_examined) = false := by
      simp [examine_enemy]
    have hhp2 : (examine_enemy target).hp = target.hp := by simp [examine_enemy]
    simp only [hero_attack, hgate, Bool.false_eq_true, if_false, hhp2]
    split <;> rename_i h <;> dsimp only at h ⊢ <;> omega

/-- Witness for C3 at the concrete immune enemy: the attack fails outright
with zero damage and no state change, and after examining, a basic attack
lowers its hp. -/
theorem immune_gate_spec_witness :
    hero_attack (fun _ => 3) false freshWarrior immuneEnemy neutralCombat 1 false =
      (immuneEnemy, neutralCombat,
        { success := false, damage_dealt := 0, enemy_defeated := false,
          xp_gained := 0, gold_gained := 0 }) ∧
    (hero_attack (fun _ => 3) false freshWarrior (examine_enemy immuneEnemy)
      neutralCombat 1 false).1.hp < immuneEnemy.hp :=
  ⟨immune_gate_spec.1 (fun _ => 3) false freshWarrior immuneEnemy neutralCombat 1 false
      (by decide) (by decide),
   immune_gate_spec.2 (fun _ => 3) false freshWarrior immuneEnemy neutralCombat
      (by decide) (by norm_num [get_damage_modifier, freshWarrior])⟩

/-! ## C5: gold addition has no non-negativity clamp -/

/-- C5: `add_gold` performs a bare addition with no clamp, so a hero with 0
gold given −50 ends at −50 gold.  This is the exact scenario of the test
`test_add_gold_negative` in `tests/test_systems.py` (fixture gold 0, amount
−50, asserting gold ≥ 0 afterwards), which the code therefore fails. -/
theorem add_gold_goes_negative :
    (add_gold freshWarrior (-50)).gold = -50 ∧
    ¬ 0 ≤ (add_gold freshWarrior (-50)).gold := by decide

/-! ## C7: status effect stacking, permanence, and turn ticks -/

theorem tick_effect_type (e : StatusEffect) :
    (tick_effect e).effect_type = e.effect_type := by
  unfold tick_effect
  split <;> rfl

theorem apply_effect_keeps (es : List StatusEffect) (ty : String) (dur : Int)
    (desc : String) :
    ∀ e ∈ es, ∃ e2 ∈ apply_effect es ty dur desc,
      e2.effect_type = e.effect_type ∧ e.duration ≤ e2.duration := by
  induction es with
  | nil => simp
  | cons a rest ih =>
      intro e he
      by_cases hty : a.effect_type = ty
      · rw [apply_effect, if_pos hty]
        rcases List.mem_cons.1 he with rfl | hmem
        · by_cases hdur : dur > e.duration
          · rw [if_pos hdur]
            exact ⟨{ e with duration := dur }, List.mem_cons_self _ _, rfl, le_of_lt hdur⟩
          · rw [if_neg hdur]
            exact ⟨e, List.mem_cons_self _ _, rfl, le_refl _⟩
        · exact ⟨e, List.mem_cons_of_mem _ hmem, rfl, le_refl _⟩
      · rw [apply_effect, if_neg hty]
        rcases List.mem_cons.1 he with rfl | hmem
        · exact ⟨e, List.mem_cons_self _ _, rfl, le_refl _⟩
        · obtain ⟨e2, h1, h2, h3⟩ := ih e hmem
          exact ⟨e2, List.mem_cons_of_mem _ h1, h2, h3⟩

theorem remove_effect_eq_filter (ty : String) :
    ∀ es : List StatusEffect, (es.map StatusEffect.effect_type).Nodup →
      (remove_effect es ty).1 = es.filter (fun e => !(e.effect_type == ty)) := by
  intro es
  induction es with
  | nil => simp [remove_effect]
  | cons a rest ih =>
      intro hnd
      simp only [List.map_cons, List.nodup_cons] at hnd
      by_cases h : a.effect_type = ty
      · rw [remove_effect, if_pos h]
        have hall : ∀ e ∈ rest, !(e.effect_type == ty) := by
          intro e he
          have : e.effect_type ≠ ty := fun hc => hnd.1 (h ▸ hc ▸ List.mem_map_of_mem _ he)
          simpa using this
        rw [List.filter_cons_of_neg (by simpa using h), List.filter_eq_self.2 hall]
      · rw [remove_effect, if_neg h]
        rw [List.filter_cons_of_pos (by simpa using h)]
        exact congrArg _ (ih hnd.2)

theorem filter_types_nodup (p : StatusEffect → Bool) (es : List StatusEffect)
    (hnd : (es.map StatusEffect.effect_type).Nodup) :
    ((es.filter p).map StatusEffect.effect_type).Nodup := by
  have hsub : ((es.filter p).map StatusEffect.effect_type).Sublist
      (es.map StatusEffect.effect_type) :=
    (List.filter_sublist es).map StatusEffect.effect_type
  exact hsub.nodup hnd

theorem foldl_remove_eq_filter :
    ∀ (R : List String) (es : List StatusEffect),
      (es.map StatusEffect.effect_type).Nodup →
      R.foldl (fun acc ty => (remove_effect acc ty).1) es =
        es.filter (fun e => decide (e.effect_type ∉ R)) := by
  intro R
  induction R with
  | nil => intro es hnd; simp
  | cons ty R ih =>
      intro es hnd
      simp only [List.foldl_cons]
      rw [remove_effect_eq_filter ty es hnd,
        ih _ (filter_types_nodup _ es hnd), List.filter_filter]
      apply List.filter_congr
      intro e he
      by_cases h1 : e.effect_type = ty <;> by_cases h2 : e.effect_type ∈ R <;>
        simp [h1, h2]

/-- The per-effect outcome of a tick: keep a permanent effect, drop an
expiring one, decrement the rest. -/
def tick_outcome (e : StatusEffect) : Option StatusEffect :=
  if e.duration = -1 then some e
  else if e.duration - 1 ≤ 0 then none
  else some { e with duration := e.duration - 1 }

theorem mem_expired_types_iff (es : List StatusEffect)
    (hnd : (es.map StatusEffect.effect_type).Nodup) (e : StatusEffect) (he : e ∈ es) :
    e.effect_type ∈ expired_types es ↔ (e.duration ≠ -1 ∧ e.duration - 1 ≤ 0) := by
  unfold expired_types
  constructor
  · intro hmem
    obtain ⟨e2, he2, hty⟩ := List.mem_map.1 hmem
    have he2m := (List.mem_filter.1 he2).1
    have he2p := (List.mem_filter.1 he2).2
    have : e2 = e := by
      have hinj := List.inj_on_of_nodup_map hnd
      exact hinj he2m he hty
    subst this
    simpa using he2p
  · intro hp
    exact List.mem_map_of_mem _ (List.mem_filter.2 ⟨he, by simpa using hp⟩)

theorem filter_tick_eq_filterMap :
    ∀ (es : List StatusEffect) (R : List String),
      (∀ e ∈ es, (e.effect_type ∈ R ↔ (e.duration ≠ -1 ∧ e.duration - 1 ≤ 0))) →
      (es.map tick_effect).filter (fun e => decide (e.effect_type ∉ R)) =
        es.filterMap tick_outcome := by
  intro es
  induction es with
  | nil => intro R hR; simp
  | cons a rest ih =>
      intro R hR
      have ha := hR a (List.mem_cons_self _ _)
      simp only [List.map_cons, List.filterMap_cons]
      by_cases hexp : a.duration ≠ -1 ∧ a.duration - 1 ≤ 0
      · have hin : a.effect_type ∈ R := ha.2 hexp
        rw [List.filter_cons_of_neg (by simpa [tick_effect_type] using hin)]
        have : tick_outcome a = none := by
          unfold tick_outcome
          rw [if_neg hexp.1, if_pos hexp.2]
        rw [this]
        exact ih R (fun e he => hR e (List.mem_cons_of_mem _ he))
      · have hnin : a.effect_type ∉ R := fun hc => hexp (ha.1 hc)
        rw [List.filter_cons_of_pos (by simpa [tick_effect_type] using hnin)]
        have : tick_outcome a = some (tick_effect a) := by
          unfold tick_outcome tick_effect
          by_cases h1 : a.duration = -1
          · rw [if_pos h1, if_pos h1]
          · rw [if_neg h1, if_neg h1, if_neg (fun hc => hexp ⟨h1, hc⟩)]
        rw [this]
        exact congrArg _ (ih R (fun e he => hR e (List.mem_cons_of_mem _ he)))

theorem process_turn_eq (es : List StatusEffect)
    (hnd : (es.map StatusEffect.effect_type).Nodup) :
    process_turn_effects es = es.filterMap tick_outcome := by
  unfold process_turn_effects
  have htypes : ((es.map tick_effect).map StatusEffect.effect_type).Nodup := by
    rw [List.map_map]
    have : (StatusEffect.effect_type ∘ tick_effect) = StatusEffect.effect_type := by
      funext e
      exact tick_effect_type e
    rw [this]
    exact hnd
  rw [foldl_remove_eq_filter (expired_types es) (es.map tick_effect) htypes]
  have hmm : ∀ e ∈ es, (e.effect_type ∈ expired_types es ↔
      (e.duration ≠ -1 ∧ e.duration - 1 ≤ 0)) :=
    fun e he => mem_expired_types_iff es hnd e he
  exact filter_tick_eq_filterMap es (expired_types es) hmm

theorem tick_outcome_type (e e2 : StatusEffect) (h : tick_outcome e = some e2) :
    e2.effect_type = e.effect_type := by
  unfold tick_outcome at h
  by_cases h1 : e.duration = -1
  · rw [if_pos h1] at h
    cases h
    rfl
  · rw [if_neg h1] at h
    by_cases h2 : e.duration - 1 ≤ 0
    · rw [if_pos h2] at h
      cases h
    · rw [if_neg h2] at h
      cases h
      rfl

theorem filterMap_tick_types_sublist (es : List StatusEffect) :
    ((es.filterMap tick_outcome).map StatusEffect.effect_type).Sublist
      (es.map StatusEffect.effect_type) := by
  induction es with
  | nil => simp
  | cons a rest ih =>
      rw [List.filterMap_cons]
      cases h : tick_outcome a with
      | none =>
          simp only [List.map_cons]
          exact ih.cons _
      | some b =>
          simp only [List.map_cons]
          rw [tick_outcome_type a b h]
          exact ih.cons₂ _

theorem process_turn_nodup (es : List StatusEffect)
    (hnd : (es.map StatusEffect.effect_type).Nodup) :
    ((process_turn_effects es).map StatusEffect.effect_type).Nodup := by
  rw [process_turn_eq es hnd]
  exact (filterMap_tick_types_sublist es).nodup hnd

/-- The claim that a permanent (−1) effect is never expired by any sequence
of apply and tick operations is false: applying a finite duration of the
same type overwrites the −1 sentinel (1 > −1 numerically), after which a
single tick expires it.  Concretely, a permanent `transformed` effect,
re-applied with duration 1 and ticked once, is gone. -/
theorem permanent_effect_expires :
    process_turn_effects (apply_effect [permanentEffect] "transformed" 1 "boost") = [] := by
  decide

/-- C7 (amended): re-applying an effect type never decreases the stored
duration of any existing effect (the survivor keeps the numerically larger
duration); for effect lists with pairwise-distinct types, one tick
decrements every non-permanent duration by exactly 1 and removes exactly
the non-permanent effects reaching ≤ 0; and a permanent (−1) effect
survives any number of ticks — though not re-application with a finite
duration, see `permanent_effect_expires`. -/
theorem status_effects_spec :
    (∀ (es : List StatusEffect) (ty : String) (dur : Int) (desc : String),
      ∀ e ∈ es, ∃ e2 ∈ apply_effect es ty dur desc,
        e2.effect_type = e.effect_type ∧ e.duration ≤ e2.duration) ∧
    (∀ es : List StatusEffect, (es.map StatusEffect.effect_type).Nodup →
      process_turn_effects es = es.filterMap tick_outcome) ∧
    (∀ (es : List StatusEffect) (e : StatusEffect) (n : Nat),
      (es.map StatusEffect.effect_type).Nodup → e ∈ es → e.duration = -1 →
      e ∈ process_turn_effects^[n] es) := by
  refine ⟨fun es ty dur desc => apply_effect_keeps es ty dur desc, process_turn_eq, ?_⟩
  intro es e n
  induction n generalizing es with
  | zero => intro _ he _; simpa using he
  | succ n ih =>
      intro hnd he hperm
      rw [Function.iterate_succ_apply]
      refine ih (process_turn_effects es) (process_turn_nodup es hnd) ?_ hperm
      rw [process_turn_eq es hnd]
      exact List.mem_filterMap.2 ⟨e, he, by unfold tick_outcome; rw [if_pos hperm]⟩

/-- Witness for C7 at a concrete two-effect list: a 3-turn `buffered` effect
and a permanent `transformed` effect tick to a 2-turn effect plus the
untouched permanent one. -/
theorem status_effects_spec_witness :
    process_turn_effects
      [{ name := "Buffered", effect_type := "buffered", duration := 3, description := "b" },
       permanentEffect] =
      [{ name := "Buffered", effect_type := "buffered", duration := 2, description := "b" },
       permanentEffect] := by
  have h := status_effects_spec.2.1
    [{ name := "Buffered", effect_type := "buffered", duration := 3, description := "b" },
     permanentEffect] (by decide)
  rw [h]
  decide

/-! ## C10: inventory capacity invariant -/

theorem bump_existing_none_iff (inv : List InventoryItem) (id : String) (q : Int) :
    bump_existing inv id q = none ↔ ∀ e ∈ inv, e.item.id ≠ id := by
  induction inv with
  | nil => simp [bump_existing]
  | cons a rest ih =>
      by_cases h : a.item.id = id
      · simp [bump_existing, h]
      · simp [bump_existing, h, ih]

theorem bump_existing_some_length (inv : List InventoryItem) (id : String) (q : Int) :
    ∀ inv2, bump_existing inv id q = some inv2 → inv2.length = inv.length := by
  induction inv with
  | nil => intro inv2 h; cases h
  | cons a rest ih =>
      intro inv2 h
      by_cases hid : a.item.id = id
      · rw [bump_existing, if_pos hid] at h
        cases h
        rfl
      · rw [bump_existing, if_neg hid] at h
        obtain ⟨r2, hr2, rfl⟩ := Option.map_eq_some'.1 h
        simp [ih r2 hr2]

theorem bump_existing_some_qty (inv : List InventoryItem) (id : String) (q : Int) :
    ∀ inv2, bump_existing inv id q = some inv2 →
      ((inv2.filter (fun e => e.item.id == id)).map InventoryItem.quantity).sum =
        ((inv.filter (fun e => e.item.id == id)).map InventoryItem.quantity).sum + q := by
  induction inv with
  | nil => intro inv2 h; cases h
  | cons a rest ih =>
      intro inv2 h
      by_cases hid : a.item.id = id
      · rw [bump_existing, if_pos hid] at h
        cases h
        have hid2 : (a.item.id == id) = true := by simpa using hid
        simp only [List.filter_cons, hid2, if_true, List.map_cons, List.sum_cons]
        ring
      · rw [bump_existing, if_neg hid] at h
        obtain ⟨r2, hr2, rfl⟩ := Option.map_eq_some'.1 h
        have hid2 : (a.item.id == id) = false := by simpa using hid
        simp only [List.filter_cons, hid2, if_false, Bool.false_eq_true]
        exact ih r2 hr2

/-- C10: `add_to_inventory` keeps the inventory length within
`MAX_INVENTORY_SIZE`; it returns `False` exactly when no existing entry has
the item id and the inventory already holds `MAX_INVENTORY_SIZE` (or more)
entries; and when an entry with the same id exists it always succeeds
without growing the entry count — even at full capacity — by adding the
quantity to that entry, so the cap bounds distinct item ids, not total item
count. -/
theorem add_to_inventory_spec :
    ∀ (h : Hero) (item : GameItem) (q : Int),
      (h.inventory.length ≤ MAX_INVENTORY_SIZE →
        (h.add_to_inventory item q).1.inventory.length ≤ MAX_INVENTORY_SIZE) ∧
      ((h.add_to_inventory item q).2 = false ↔
        (∀ e ∈ h.inventory, e.item.id ≠ item.id) ∧
        MAX_INVENTORY_SIZE ≤ h.inventory.length) ∧
      ((∃ e ∈ h.inventory, e.item.id = item.id) →
        (h.add_to_inventory item q).2 = true ∧
        (h.add_to_inventory item q).1.inventory.length = h.inventory.length ∧
        (((h.add_to_inventory item q).1.inventory.filter
            (fun e => e.item.id == item.id)).map InventoryItem.quantity).sum =
          ((h.inventory.filter (fun e => e.item.id == item.id)).map
            InventoryItem.quantity).sum + q) := by
  intro h item q
  unfold Hero.add_to_inventory
  cases hb : bump_existing h.inventory item.id q with
  | none =>
      have hnone := (bump_existing_none_iff h.inventory item.id q).1 hb
      by_cases hlen : h.inventory.length ≥ MAX_INVENTORY_SIZE
      · rw [if_pos hlen]
        refine ⟨fun hle => hle, iff_of_true rfl ⟨hnone, hlen⟩, ?_⟩
        intro hex
        obtain ⟨e, he, heq⟩ := hex
        exact absurd heq (hnone e he)
      · rw [if_neg hlen]
        refine ⟨fun _ => ?_, iff_of_false (by simp) (fun hc => hlen hc.2), ?_⟩
        · simpa using Nat.lt_of_not_le hlen
        · intro hex
          obtain ⟨e, he, heq⟩ := hex
          exact absurd heq (hnone e he)
  | some inv2 =>
      have hlen2 := bump_existing_some_length h.inventory item.id q inv2 hb
      refine ⟨fun hle => by simpa [hlen2] using hle, ?_, ?_⟩
      · refine iff_of_false (by simp) ?_
        intro hc
        rw [(bump_existing_none_iff h.inventory item.id q).2 hc.1] at hb
        cases hb
      · intro _
        exact ⟨rfl, by simpa using hlen2,
          by simpa using bump_existing_some_qty h.inventory item.id q inv2 hb⟩

/-- Witness for C10: adding a weapon to the fresh (empty-inventory) warrior
keeps the inventory within the capacity cap. -/
theorem add_to_inventory_spec_witness :
    (freshWarrior.add_to_inventory (GameItem.weapon basicWeapon) 1).1.inventory.length ≤
      MAX_INVENTORY_SIZE :=
  (add_to_inventory_spec freshWarrior (GameItem.weapon basicWeapon) 1).1 (by decide)

/-! ## C4: experience curve and multi-level grants -/

theorem xp_required_succ_pos (l : Nat) : 100 ≤ xp_required_for_level (l + 1) := by
  unfold xp_required_for_level
  have h := mySqrt_spec (10000 * (l + 1) ^ 3)
  by_contra hcon
  push_neg at hcon
  have hge : 10000 ≤ 10000 * (l + 1) ^ 3 := by
    nlinarith [pow_pos (Nat.succ_pos l) 3]
  nlinarith [h.2]

theorem xp_required_strict (L : Nat) :
    xp_required_for_level L < xp_required_for_level (L + 1) := by
  unfold xp_required_for_level
  have h1 := mySqrt_spec (10000 * L ^ 3)
  have h2 := mySqrt_spec (10000 * (L + 1) ^ 3)
  have hL : L ^ 3 ≤ L ^ 4 := by
    cases L with
    | zero => simp
    | succ n => exact Nat.pow_le_pow_right (Nat.succ_le_succ (Nat.zero_le n)) (by norm_num)
  have hs : mySqrt (10000 * L ^ 3) ≤ 100 * L ^ 2 := by
    by_contra hcon
    push_neg at hcon
    nlinarith [h1.1]
  by_contra hcon
  push_neg at hcon
  have hts : (mySqrt (10000 * (L + 1) ^ 3) + 1) * (mySqrt (10000 * (L + 1) ^ 3) + 1) ≤
      (mySqrt (10000 * L ^ 3) + 1) * (mySqrt (10000 * L ^ 3) + 1) :=
    Nat.mul_le_mul (by omega) (by omega)
  nlinarith [h1.1, h2.2, hs, hts]

theorem apply_level_up_fields (h : Hero) :
    (apply_level_up h).uptime = (apply_level_up h).calculate_max_uptime ∧
    (apply_level_up h).api_credits = (apply_level_up h).calculate_max_api_credits ∧
    (apply_level_up h).xp = h.xp ∧
    (apply_level_up h).level = h.level ∧
    (apply_level_up h).gold = h.gold := by
  cases hr : h.role <;>
    simp [apply_level_up, Hero.calculate_max_uptime, Hero.calculate_max_api_credits, hr]

theorem level_loop_spec :
    ∀ (fuel : Nat) (hero : Hero) (lev : Bool),
      hero.xp < fuel →
      (level_loop fuel hero lev).1.xp <
        xp_required_for_level ((level_loop fuel hero lev).1.level + 1) ∧
      hero.level ≤ (level_loop fuel hero lev).1.level ∧
      (level_loop fuel hero lev).1.xp +
        level_cost hero.level (level_loop fuel hero lev).1.level = hero.xp ∧
      (level_loop fuel hero lev).1.gold = hero.gold ∧
      (hero.level < (level_loop fuel hero lev).1.level →
        (level_loop fuel hero lev).1.uptime =
          (level_loop fuel hero lev).1.calculate_max_uptime ∧
        (level_loop fuel hero lev).1.api_credits =
          (level_loop fuel hero lev).1.calculate_max_api_credits ∧
        (level_loop fuel hero lev).2 = true) ∧
      ((level_loop fuel hero lev).1.level = hero.level →
        level_loop fuel hero lev = (hero, lev)) := by
  intro fuel
  induction fuel with
  | zero => intro hero lev hf; omega
  | succ fuel ih =>
      intro hero lev hf
      rw [level_loop]
      by_cases hc : xp_required_for_level (hero.level + 1) ≤ hero.xp
      · rw [if_pos hc]
        have hpos := xp_required_succ_pos hero.level
        set hero0 : Hero :=
          { hero with xp := hero.xp - xp_required_for_level (hero.level + 1),
                      level := hero.level + 1 } with hh0
        set hero1 := apply_level_up hero0 with hh1
        have hfields := apply_level_up_fields hero0
        have hxp1 : hero1.xp = hero.xp - xp_required_for_level (hero.level + 1) :=
          hfields.2.2.1
        have hlv1 : hero1.level = hero.level + 1 := hfields.2.2.2.1
        have hgold1 : hero1.gold = hero.gold := hfields.2.2.2.2
        have hfuel1 : hero1.xp < fuel := by omega
        obtain ⟨p1, p2, p3, p4, p5, p6⟩ := ih hero1 true hfuel1
        rw [hlv1] at p2 p3
        have hsplit : level_cost hero.level (level_loop fuel hero1 true).1.level =
            xp_required_for_level (hero.level + 1) +
              level_cost (hero.level + 1) (level_loop fuel hero1 true).1.level := by
          unfold level_cost
          rw [Finset.sum_eq_sum_Ico_succ_bot (by omega) xp_required_for_level]
        refine ⟨p1, by omega, by omega, by rw [p4, hgold1], ?_, ?_⟩
        · intro _
          rcases eq_or_lt_of_le p2 with heq | hlt
          · have hfix := p6 (by omega)
            rw [hfix]
            exact ⟨hfields.1, hfields.2.1, rfl⟩
          · exact p5 (by omega)
        · intro hEq
          exact absurd hEq (by omega)
      · rw [if_neg hc]
        dsimp only
        refine ⟨by omega, le_refl _, ?_, rfl, ?_, fun _ => rfl⟩
        · unfold level_cost
          rw [Finset.Ico_self, Finset.sum_empty]
          omega
        · intro hlt
          exact absurd hlt (by omega)

theorem add_experience_gold (hero : Hero) (xp : Nat) :
    (add_experience hero xp).1.gold = hero.gold := by
  unfold add_experience
  exact (level_loop_spec (hero.xp + xp + 1) { hero with xp := hero.xp + xp } false
    (Nat.lt_succ_self _)).2.2.2.1

/-- C4: the experience requirement `floor(100·L^1.5)` is strictly increasing
in L; `add_experience` runs the level-up loop to completion — the final
experience lies below the next requirement, each crossed threshold consumed
exactly its requirement (the conservation equation over `level_cost`), and
whenever at least one level was gained the final health and resource pools
equal the freshly recomputed maximums.  A level-1 hero granted 5000 XP jumps
to level 6 in one call (5 level-ups), fully restored. -/
theorem add_experience_spec :
    (∀ L : Nat, xp_required_for_level L < xp_required_for_level (L + 1)) ∧
    (∀ (hero : Hero) (xp : Nat),
      (add_experience hero xp).1.xp <
        xp_required_for_level ((add_experience hero xp).1.level + 1) ∧
      hero.level ≤ (add_experience hero xp).1.level ∧
      (add_experience hero xp).1.xp +
        level_cost hero.level (add_experience hero xp).1.level = hero.xp + xp ∧
      (hero.level < (add_experience hero xp).1.level →
        (add_experience hero xp).1.uptime =
          (add_experience hero xp).1.calculate_max_uptime ∧
        (add_experience hero xp).1.api_credits =
          (add_experience hero xp).1.calculate_max_api_credits ∧
        (add_experience hero xp).2 = true)) ∧
    ((add_experience freshWarrior 5000).1.level = 6 ∧
     (add_experience freshWarrior 5000).1.xp = 812 ∧
     (add_experience freshWarrior 5000).1.uptime =
       (add_experience freshWarrior 5000).1.max_uptime ∧
     (add_experience freshWarrior 5000).1.uptime =
       (add_experience freshWarrior 5000).1.calculate_max_uptime ∧
     (add_experience freshWarrior 5000).2 = true) := by
  refine ⟨xp_required_strict, ?_, ?_⟩
  · intro hero xp
    unfold add_experience
    obtain ⟨p1, p2, p3, p4, p5, p6⟩ :=
      level_loop_spec (hero.xp + xp + 1) { hero with xp := hero.xp + xp } false
        (Nat.lt_succ_self _)
    exact ⟨p1, p2, p3, p5⟩
  · decide

/-- Witness for C4: the fresh warrior with a 5000 XP grant gains more than
one level in the single call, and the restoration clause of the theorem
applies to it. -/
theorem add_experience_spec_witness :
    freshWarrior.level < (add_experience freshWarrior 5000).1.level ∧
    (add_experience freshWarrior 5000).1.uptime =
      (add_experience freshWarrior 5000).1.calculate_max_uptime :=
  ⟨by decide, ((add_experience_spec.2.1 freshWarrior 5000).2.2.2 (by decide)).1⟩

/-! ## C6: treasure room population -/

/-- C6: generated treasure rooms indeed contain no enemies and at most the
drawn number of loot items (the 2–4 count is a maximum, slots with no
surviving candidate are skipped) — but the uncommon-or-better guarantee
fails: `_generate_loot` never reads its `min_tier` argument and filters
candidates only by drop rate, so with a weapons pool holding one common-tier
weapon (drop rate 1) a treasure room is generated holding two common-tier
items.  (Consumable templates do not even carry a tier field.) -/
theorem treasure_room_loot :
    (∀ (enemy_data : EnemyData) (item_data : ItemData) (orc : RoomOracle) (depth : Nat),
      (generate_room enemy_data item_data orc depth (some .treasure)).enemies = [] ∧
      (generate_room enemy_data item_data orc depth (some .treasure)).items.length ≤
        orc.lootQty) ∧
    ((generate_room emptyEnemyData commonOnlyItems treasureOracle 2
        (some .treasure)).room_type = RoomType.treasure ∧
     (generate_room emptyEnemyData commonOnlyItems treasureOracle 2
        (some .treasure)).enemies = [] ∧
     (generate_room emptyEnemyData commonOnlyItems treasureOracle 2
        (some .treasure)).items =
       [GameItem.weapon commonLootWeapon, GameItem.weapon commonLootWeapon] ∧
     commonLootWeapon.tier = Tier.common) := by
  constructor
  · intro enemy_data item_data orc depth
    refine ⟨rfl, ?_⟩
    unfold generate_room generate_loot
    calc ((List.range orc.lootQty).filterMap
            (generate_loot_slot item_data orc.lootOracle depth Tier.uncommon)).length ≤
          (List.range orc.lootQty).length := List.length_filterMap_le _ _
      _ = orc.lootQty := List.length_range _
  · exact ⟨by decide, by decide, by decide, by decide⟩

/-- Witness for C6 (the universally quantified bound applied at the concrete
treasure fixture). -/
theorem treasure_room_loot_witness :
    (generate_room emptyEnemyData commonOnlyItems treasureOracle 2
      (some .treasure)).enemies = [] ∧
    (generate_room emptyEnemyData commonOnlyItems treasureOracle 2
      (some .treasure)).items.length ≤ treasureOracle.lootQty :=
  (treasure_room_loot.1 emptyEnemyData commonOnlyItems treasureOracle 2)

/-! ## C9: reward application in the attack handler -/

theorem enemy_attack_frame (seq : Nat → Nat) (enemy : Enemy) (hero : Hero)
    (cs : CombatState) :
    (enemy_attack seq enemy hero cs).1.xp = hero.xp ∧
    (enemy_attack seq enemy hero cs).1.gold = hero.gold := by
  simp only [enemy_attack]
  split <;> exact ⟨rfl, rfl⟩

theorem enemy_turn_frame (eseq : Nat → Nat → Nat) (combat : CombatState) :
    ∀ (es : List Enemy) (i : Nat) (hero : Hero),
      (enemy_turn eseq combat i es hero).1.xp = hero.xp ∧
      (enemy_turn eseq combat i es hero).1.gold = hero.gold := by
  intro es
  induction es with
  | nil => intro i hero; exact ⟨rfl, rfl⟩
  | cons e rest ih =>
      intro i hero
      simp only [enemy_turn]
      have hf := enemy_attack_frame (eseq i) e hero combat
      split
      · exact hf
      · have hrec := ih (i + 1) (enemy_attack (eseq i) e hero combat).1
        exact ⟨hrec.1.trans hf.1, hrec.2.trans hf.2⟩

theorem hero_attack_enemy_rewards (seq : Nat → Nat) (crit : Bool) (hero : Hero)
    (target : Enemy) (cs : CombatState) (mult : ℚ) (ia : Bool) :
    (hero_attack seq crit hero target cs mult ia).1.xp_reward = target.xp_reward ∧
    (hero_attack seq crit hero target cs mult ia).1.gold_reward = target.gold_reward := by
  simp only [hero_attack]
  split
  · exact ⟨rfl, rfl⟩
  · split <;> exact ⟨rfl, rfl⟩

theorem hero_attack_reports (seq : Nat → Nat) (crit : Bool) (hero : Hero)
    (target : Enemy) (cs : CombatState) (mult : ℚ) (ia : Bool) :
    ((hero_attack seq crit hero target cs mult ia).2.2.enemy_defeated = true →
      (hero_attack seq crit hero target cs mult ia).2.2.xp_gained = target.xp_reward ∧
      (hero_attack seq crit hero target cs mult ia).2.2.gold_gained = target.gold_reward) ∧
    ((hero_attack seq crit hero target cs mult ia).2.2.enemy_defeated = false →
      (hero_attack seq crit hero target cs mult ia).2.2.xp_gained = 0 ∧
      (hero_attack seq crit hero target cs mult ia).2.2.gold_gained = 0) := by
  simp only [hero_attack]
  split
  · exact ⟨fun h => Bool.noConfusion h, fun _ => ⟨rfl, rfl⟩⟩
  · split
    · exact ⟨fun _ => ⟨rfl, rfl⟩, fun h => Bool.noConfusion h⟩
    · exact ⟨fun h => Bool.noConfusion h, fun _ => ⟨rfl, rfl⟩⟩

theorem enumFrom_find?_get? (p : Nat × Enemy → Bool) :
    ∀ (l : List Enemy) (n i : Nat) (a : Enemy),
      (List.enumFrom n l).find? p = some (i, a) →
      n ≤ i ∧ l.get? (i - n) = some a := by
  intro l
  induction l with
  | nil => intro n i a h; simp [List.enumFrom] at h
  | cons b rest ih =>
      intro n i a h
      rw [List.enumFrom, List.find?] at h
      cases hp : p (n, b) with
      | true =>
          rw [hp] at h
          simp only [Option.some.injEq, Prod.mk.injEq] at h
          obtain ⟨rfl, rfl⟩ := h
          exact ⟨le_refl _, by simp⟩
      | false =>
          rw [hp] at h
          obtain ⟨h1, h2⟩ := ih (n + 1) i a h
          refine ⟨by omega, ?_⟩
          have hsub : i - n = (i - (n + 1)) + 1 := by omega
          rw [hsub]
          simpa using h2

theorem map_set_eq {α : Type} (f : Enemy → α) :
    ∀ (l : List Enemy) (i : Nat) (b a : Enemy),
      l.get? i = some a → f b = f a → (l.set i b).map f = l.map f := by
  intro l
  induction l with
  | nil => intro i b a h _; cases h
  | cons x rest ih =>
      intro i b a h hf
      cases i with
      | zero =>
          rw [List.get?_cons_zero] at h
          cases h
          simp only [List.set_cons_zero, List.map_cons]
          rw [hf]
      | succ n =>
          rw [List.get?_cons_succ] at h
          simp only [List.set_cons_succ, List.map_cons]
          rw [ih n b a h hf]

theorem attack_resolve_spec (seq : Nat → Nat) (crit : Bool) (eseq : Nat → Nat → Nat)
    (gs1 : GameState) (idx : Nat) (enemy : Enemy) (combat0 : CombatState)
    (sk : SkillInfo) (hget : gs1.room.enemies.get? idx = some enemy) :
    ((attack_resolve seq crit eseq gs1 idx enemy combat0 sk).2 ≠ AttackTag.victory →
      (attack_resolve seq crit eseq gs1 idx enemy combat0 sk).1.hero.xp = gs1.hero.xp ∧
      (attack_resolve seq crit eseq gs1 idx enemy combat0 sk).1.hero.gold = gs1.hero.gold) ∧
    ((attack_resolve seq crit eseq gs1 idx enemy combat0 sk).2 = AttackTag.victory →
      ∃ h1 : Hero,
        h1.xp = gs1.hero.xp ∧ h1.level = gs1.hero.level ∧ h1.gold = gs1.hero.gold ∧
        (attack_resolve seq crit eseq gs1 idx enemy combat0 sk).1.hero =
          add_gold (add_experience h1 ((gs1.room.enemies.map (fun e => e.xp_reward)).sum)).1
            (((gs1.room.enemies.map (fun e => e.gold_reward)).sum : Nat) : Int) ∧
        (attack_resolve seq crit eseq gs1 idx enemy combat0 sk).1.hero.gold =
          gs1.hero.gold +
            (((gs1.room.enemies.map (fun e => e.gold_reward)).sum : Nat) : Int)) := by
  simp only [attack_resolve]
  split
  · exact ⟨fun _ => ⟨rfl, rfl⟩, fun hv => nomatch hv⟩
  · rename_i hmp
    split
    · rename_i hall
      refine ⟨fun hnv => absurd rfl hnv, fun _ => ?_⟩
      refine ⟨charge_skill_cost gs1 sk, rfl, rfl, rfl, ?_, ?_⟩
      · dsimp only
        rw [map_set_eq (fun e => e.xp_reward) gs1.room.enemies idx _ enemy hget
            ((hero_attack_enemy_rewards _ _ _ _ _ _ _).1),
          map_set_eq (fun e => e.gold_reward) gs1.room.enemies idx _ enemy hget
            ((hero_attack_enemy_rewards _ _ _ _ _ _ _).2)]
      · dsimp only
        simp only [add_gold]
        rw [add_experience_gold]
        rw [map_set_eq (fun e => e.gold_reward) gs1.room.enemies idx _ enemy hget
            ((hero_attack_enemy_rewards _ _ _ _ _ _ _).2)]
        rfl
    · rename_i hall
      split
      · refine ⟨fun _ => ?_, fun hv => nomatch hv⟩
        dsimp only
        exact enemy_turn_frame eseq _ _ 0 _
      · refine ⟨fun _ => ?_, fun hv => nomatch hv⟩
        dsimp only
        exact enemy_turn_frame eseq _ _ 0 _

/-- C9: `hero_attack` only reports the slain target rewards in its result
(never touching hero experience or gold — it does not even return a hero);
the attack handler mutates experience and gold exactly when the attack
leaves no enemy with positive health in the room, granting the sum of
`xp_reward` (through `add_experience`) and of `gold_reward` over the room
whole enemy list — previously defeated enemies included; any outcome other
than the victory branch leaves hero xp and gold unchanged. -/
theorem attack_rewards_spec :
    (∀ (seq : Nat → Nat) (crit : Bool) (hero : Hero) (target : Enemy)
       (cs : CombatState) (mult : ℚ) (ia : Bool),
      (hero_attack seq crit hero target cs mult ia).2.2.enemy_defeated = true →
        (hero_attack seq crit hero target cs mult ia).2.2.xp_gained = target.xp_reward ∧
        (hero_attack seq crit hero target cs mult ia).2.2.gold_gained = target.gold_reward) ∧
    (∀ (seq : Nat → Nat) (crit : Bool) (shuffle : List String → List String)
       (eseq : Nat → Nat → Nat) (skills : List SkillInfo) (gs : GameState)
       (target skill : String),
      ((attack_handler seq crit shuffle eseq skills gs target skill).2 ≠ AttackTag.victory →
        (attack_handler seq crit shuffle eseq skills gs target skill).1.hero.xp = gs.hero.xp ∧
        (attack_handler seq crit shuffle eseq skills gs target skill).1.hero.gold =
          gs.hero.gold) ∧
      ((attack_handler seq crit shuffle eseq skills gs target skill).2 = AttackTag.victory →
        ∃ h1 : Hero,
          h1.xp = gs.hero.xp ∧ h1.level = gs.hero.level ∧ h1.gold = gs.hero.gold ∧
          (attack_handler seq crit shuffle eseq skills gs target skill).1.hero =
            add_gold
              (add_experience h1 ((gs.room.enemies.map (fun e => e.xp_reward)).sum)).1
              (((gs.room.enemies.map (fun e => e.gold_reward)).sum : Nat) : Int) ∧
          (attack_handler seq crit shuffle eseq skills gs target skill).1.hero.gold =
            gs.hero.gold +
              (((gs.room.enemies.map (fun e => e.gold_reward)).sum : Nat) : Int))) := by
  refine ⟨fun seq crit hero target cs mult ia =>
    (hero_attack_reports seq crit hero target cs mult ia).1, ?_⟩
  intro seq crit shuffle eseq skills gs target skill
  simp only [attack_handler]
  cases hfind : gs.room.enemies.enum.find? (fun p => enemy_matches target p.2) with
  | none =>
      exact ⟨fun _ => ⟨rfl, rfl⟩, fun hv => nomatch hv⟩
  | some pr =>
      obtain ⟨idx, enemy⟩ := pr
      have hget : gs.room.enemies.get? idx = some enemy := by
        have := enumFrom_find?_get? (fun p => enemy_matches target p.2)
          gs.room.enemies 0 idx enemy (by simpa [List.enum] using hfind)
        simpa using this.2
      cases hskill : skills.find? (fun s => s.id = skill) with
      | none => exact ⟨fun _ => ⟨rfl, rfl⟩, fun hv => nomatch hv⟩
      | some sk =>
          exact attack_resolve_spec seq crit eseq _ idx enemy _ sk hget

/-- Witness for C9 at a concrete state whose room holds no enemies: the
attack reports an invalid target and hero xp and gold are untouched. -/
theorem attack_rewards_spec_witness :
    (attack_handler (fun _ => 1) false id (fun _ _ => 1) [basicAttackSkill]
      emptyRoomState "bug" "basic_attack").1.hero.xp = emptyRoomState.hero.xp ∧
    (attack_handler (fun _ => 1) false id (fun _ _ => 1) [basicAttackSkill]
      emptyRoomState "bug" "basic_attack").1.hero.gold = emptyRoomState.hero.gold :=
  (attack_rewards_spec.2 (fun _ => 1) false id (fun _ _ => 1) [basicAttackSkill]
    emptyRoomState "bug" "basic_attack").1 (by decide)

end IntegrationQuest
